import Mathlib

/-!
Verification of the thin-plate-spline (TPS) transform module
`skimage/transform/_thin_plate_splines.py`.

The numeric code is embedded over exact rationals `ℚ` (the exact-arithmetic
idealization of the floating-point computation).  Two library primitives have
no rational counterpart and are handled as follows.

* `np.log`: every definition is parametric in a function `rlog : ℚ → ℚ`
  standing for the real logarithm.  All structural theorems hold for every
  `rlog`; concrete witnesses instantiate it with a computable stand-in.
* `sqrt` inside distance computations: the source computes
  `r = sqrt(sq)` with `sq` the squared Euclidean distance and then only ever
  uses `r**2` (which equals `sq` exactly) and the test `r == 0` (which holds
  iff `sq = 0`) inside the kernel `_U`.  The embedding therefore works
  directly with squared distances, which are rational.

Python exceptions are modelled with `Except`; the mutable `TpsTransform`
object is modelled by explicit state passing, with the state a method raises
in being the state observable afterwards, exactly as in Python.
-/

/-- Errors the Python code can raise: `ValueError` with a message, numpy
broadcast failures during array assignment (a `ValueError` raised inside
numpy, with a numpy-generated message), `numpy.linalg.LinAlgError` from
`np.linalg.inv` on a singular matrix, and `IndexError` from indexing a
too-short shape tuple. -/
inductive PyErr where
  | valueError (msg : String)
  | broadcastError
  | linAlgError
  | indexError
deriving DecidableEq, Repr

/-- A numeric array argument as the Python caller can pass it: a scalar, a
1-D, 2-D or 3-D (rectangular) nested list.  Ranks above 3 behave like rank 3
for every code path modelled here (`_ensure_2d` rejects them identically). -/
inductive PyInput where
  | scalar (q : ℚ)
  | arr1 (xs : List ℚ)
  | arr2 (xs : List (List ℚ))
  | arr3 (xs : List (List (List ℚ)))
deriving DecidableEq

/-- `ndim` of a `PyInput`. -/
def ndimOf : PyInput → ℕ
  | .scalar _ => 0
  | .arr1 _ => 1
  | .arr2 _ => 2
  | .arr3 _ => 3

/-- `shape[1]` of a 2-D `PyInput` (number of columns); `0` for other ranks,
where the code never reads it. -/
def pyCols : PyInput → ℕ
  | .arr2 xs => (xs.headD []).length
  | _ => 0

/-- The numpy shape `(n, d)` of a rectangular 2-D array. -/
def shape2 (a : List (List ℚ)) : ℕ × ℕ := (a.length, (a.headD []).length)

/-- Row `i` of a 2-D array read as a 2-D point (columns 0 and 1). -/
def ptRow (a : List (List ℚ)) (i : ℕ) : ℚ × ℚ :=
  ((a.getD i []).getD 0 0, (a.getD i []).getD 1 0)

/-- The mutable state of a `TpsTransform` object: `_estimated`, `parameters`,
`src` and `dst`, each `None` until set. -/
structure TpsTransform where
  estimated : Bool
  parameters : Option (List (List ℚ))
  src : Option (List (List ℚ))
  dst : Option (List (List ℚ))
deriving DecidableEq

/-- `TpsTransform.__init__`: all fields unset. -/
def TpsTransform.init : TpsTransform :=
  { estimated := false, parameters := none, src := none, dst := none }

/-- Checks of `_ensure_2d` that run after the rank has been normalised to 2:
`array.size == 0` and `len(array) < 3`. -/
def ensure2dArr (a : List (List ℚ)) : Except PyErr (List (List ℚ)) :=
  if (a.map List.length).sum = 0 then
    .error (.valueError "Array of points can not be empty.")
  else if a.length < 3 then
    .error (.valueError "Array points less than 3 is undefined.")
  else .ok a

/-- `_ensure_2d`: rejects ranks other than 1 and 2, expands a 1-D array of
length `N` to shape `(N, 1)`, rejects empty arrays and fewer than 3 points. -/
def ensure2d : PyInput → Except PyErr (List (List ℚ))
  | .scalar _ => .error (.valueError "Array must be be 2D.")
  | .arr3 _ => .error (.valueError "Array must be be 2D.")
  | .arr1 xs => ensure2dArr (xs.map fun x => [x])
  | .arr2 xs => ensure2dArr xs

/-- The constant `_small = 1e-8` of `_U`. -/
def smallEps : ℚ := 1 / 100000000

/-- The radial basis kernel `_U` of the source, expressed on the squared
distance `sq = r**2`: `np.where(r == 0.0, 0.0, (r**2) * np.log((r**2) + _small))`.
`r == 0` iff `sq = 0` and `r**2 = sq` exactly, so this is the exact content
of `_U` with the real `log` abstracted as `rlog`. -/
def kernelU (rlog : ℚ → ℚ) (sq : ℚ) : ℚ :=
  if sq = 0 then 0 else sq * rlog (sq + smallEps)

/-- Squared Euclidean distance of two 2-D points (the quantity whose square
root `scipy.spatial.distance.cdist` and `_spline_function` compute). -/
def sqDist (p q : ℚ × ℚ) : ℚ := (p.1 - q.1) ^ 2 + (p.2 - q.2) ^ 2

/-- `TpsTransform._radial_distance`: the `n × n` matrix
`_U(cdist(src, src))` of kernel values of pairwise source distances. -/
def radialDistance (rlog : ℚ → ℚ) (n : ℕ) (pts : ℕ → ℚ × ℚ) :
    Matrix (Fin n) (Fin n) ℚ :=
  Matrix.of fun i j => kernelU rlog (sqDist (pts (i : ℕ)) (pts (j : ℕ)))

/-- Entry `k` of row `i` of `P = np.hstack([np.ones((n, 1)), src])`:
`[1, x_i, y_i]`. -/
def pRow (pts : ℕ → ℚ × ℚ) (i k : ℕ) : ℚ :=
  if k = 0 then 1 else if k = 1 then (pts i).1 else (pts i).2

/-- The `(n+3) × (n+3)` system matrix `L` of `estimate`:
`L[:n,:n] = K`, `L[:n,-3:] = P`, `L[-3:,:n] = P.T`, zero elsewhere. -/
def systemL (rlog : ℚ → ℚ) (n : ℕ) (pts : ℕ → ℚ × ℚ) :
    Matrix (Fin (n + 3)) (Fin (n + 3)) ℚ :=
  Matrix.of fun i j =>
    if hi : (i : ℕ) < n then
      if hj : (j : ℕ) < n then radialDistance rlog n pts ⟨i, hi⟩ ⟨j, hj⟩
      else pRow pts (i : ℕ) ((j : ℕ) - n)
    else if hj : (j : ℕ) < n then pRow pts (j : ℕ) ((i : ℕ) - n)
    else 0

/-- The `(n+3) × 2` target matrix
`V = np.concatenate([dst, np.zeros((d + 1, d))])` for `d = 2`. -/
def systemV (n : ℕ) (pts : ℕ → ℚ × ℚ) : Matrix (Fin (n + 3)) (Fin 2) ℚ :=
  Matrix.of fun i j =>
    if (i : ℕ) < n then (if (j : ℕ) = 0 then (pts (i : ℕ)).1 else (pts (i : ℕ)).2)
    else 0

/-- `np.linalg.inv` on a nonsingular matrix, in exact arithmetic:
`det⁻¹ • adjugate`.  (On a singular matrix the Python call raises
`LinAlgError` instead; callers of this definition branch on `det = 0`.) -/
def matInv {k : ℕ} (A : Matrix (Fin k) (Fin k) ℚ) : Matrix (Fin k) (Fin k) ℚ :=
  A.det⁻¹ • A.adjugate

/-- Column `c` of an `(n+3) × 2` coefficient matrix as a ℕ-indexed function
(the vector `coeffs[:, c]` passed to `_spline_function`). -/
def colFn {n : ℕ} (C : Matrix (Fin (n + 3)) (Fin 2) ℚ) (c : Fin 2) : ℕ → ℚ :=
  fun k => if h : k < n + 3 then C ⟨k, h⟩ c else 0

/-- `TpsTransform._spline_function` over `n` source landmarks `pts` with the
coefficient column `coeffs` (length `n + 3`): `w = coeffs[:-3]`,
`a1, ax, ay = coeffs[-3:]`, result
`a1 + ax*x + ay*y + Σ_i w_i * U(dist(P_i, (x, y)))`. -/
def splineFunction (rlog : ℚ → ℚ) (n : ℕ) (pts : ℕ → ℚ × ℚ)
    (coeffs : ℕ → ℚ) (x y : ℚ) : ℚ :=
  coeffs n + coeffs (n + 1) * x + coeffs (n + 2) * y +
    ∑ i ∈ Finset.range n, coeffs i * kernelU rlog (sqDist (pts i) (x, y))

/-- The rows of a matrix as nested lists (how the solved coefficient matrix
is held by the dynamic state). -/
def toLists {r c : ℕ} (M : Matrix (Fin r) (Fin c) ℚ) : List (List ℚ) :=
  (List.finRange r).map fun i => (List.finRange c).map fun j => M i j

/-- The solve phase of `estimate` for `(n, 2)` inputs that passed
validation: `np.linalg.inv(L)` raises `LinAlgError` when `L` is singular,
otherwise the coefficients `inv(L) . V` are produced. -/
def solveStep (rlog : ℚ → ℚ) (srcA dstA : List (List ℚ)) :
    Except PyErr (List (List ℚ)) :=
  if (systemL rlog srcA.length (ptRow srcA)).det = 0 then .error .linAlgError
  else .ok (toLists (matInv (systemL rlog srcA.length (ptRow srcA)) *
    systemV srcA.length (ptRow dstA)))

/-- `TpsTransform.estimate`, step for step.  Returns the Python result
(`Except` models raising) together with the object state observable
afterwards:
1. `_ensure_2d` both inputs (raising leaves the state untouched);
2. raise `ValueError` when the shapes differ;
3. assign `self.src` and `self.dst`;
4. build `K`, `P` and assign the blocks of `L`; the assignment
   `L[:n,-3:] = P` raises a numpy broadcast `ValueError` unless `d + 1 = 3`;
5. solve (`solveStep`); on success store `parameters`, set
   `_estimated = True` and return it. -/
def estimateBody (rlog : ℚ → ℚ) (t : TpsTransform)
    (srcA dstA : List (List ℚ)) : Except PyErr Bool × TpsTransform :=
  if shape2 srcA ≠ shape2 dstA then
    (.error (.valueError "src and dst shape must be identical"), t)
  else
    let t1 : TpsTransform := { t with src := some srcA, dst := some dstA }
    if (srcA.headD []).length + 1 ≠ 3 then (.error .broadcastError, t1)
    else
      match solveStep rlog srcA dstA with
      | .error e => (.error e, t1)
      | .ok p => (.ok true, ⟨true, some p, some srcA, some dstA⟩)

def TpsTransform.estimate (rlog : ℚ → ℚ) (t : TpsTransform)
    (srcIn dstIn : PyInput) : Except PyErr Bool × TpsTransform :=
  match ensure2d srcIn with
  | .error e => (.error e, t)
  | .ok srcA =>
    match ensure2d dstIn with
    | .error e => (.error e, t)
    | .ok dstA => estimateBody rlog t srcA dstA

/-- `TpsTransform.estimate` specialised to well-formed `(n, 2)` landmark
arrays (the only inputs that reach the solve): every validation step except
the point-count check passes, and the result is the coefficient matrix. -/
def estimateT (rlog : ℚ → ℚ) (n : ℕ) (srcP dstP : ℕ → ℚ × ℚ) :
    Except PyErr (Matrix (Fin (n + 3)) (Fin 2) ℚ) :=
  if n < 3 then .error (.valueError "Array points less than 3 is undefined.")
  else if (systemL rlog n srcP).det = 0 then .error .linAlgError
  else .ok (matInv (systemL rlog n srcP) * systemV n dstP)

/-- The spline evaluation of `__call__` over dynamic lists: source landmark
rows `srcL`, one coefficient column `coeffs`.  `w = coeffs[:-3]` is zipped
with the landmark rows (`zip` truncates like Python) and
`a1, ax, ay = coeffs[-3:]`. -/
def splineFunctionL (rlog : ℚ → ℚ) (srcL : List (List ℚ)) (coeffs : List ℚ)
    (x y : ℚ) : ℚ :=
  let w := coeffs.take (coeffs.length - 3)
  let a1 := coeffs.getD (coeffs.length - 3) 0
  let ax := coeffs.getD (coeffs.length - 2) 0
  let ay := coeffs.getD (coeffs.length - 1) 0
  a1 + ax * x + ay * y +
    ((w.zip srcL).map fun p =>
      p.1 * kernelU rlog (sqDist (ptRow [p.2] 0) (x, y))).sum

/-- `TpsTransform.__call__`: raises `ValueError` when `parameters` is unset;
converts `coords` with `np.array` and raises `ValueError` unless it is 2-D
with exactly 2 columns; otherwise evaluates `_spline_function` on the two
coefficient columns and pairs the results. -/
def TpsTransform.call (rlog : ℚ → ℚ) (t : TpsTransform) (coordsIn : PyInput) :
    Except PyErr (List (ℚ × ℚ)) :=
  match t.parameters with
  | none => .error (.valueError "None. Compute the estimate")
  | some coeffs =>
    match coordsIn with
    | .arr2 rows =>
      if (rows.headD []).length ≠ 2 then
        .error (.valueError "Input coords must have shape (N,2)")
      else
        let srcL := t.src.getD []
        let cx := coeffs.map fun r => r.getD 0 0
        let cy := coeffs.map fun r => r.getD 1 0
        .ok (rows.map fun p =>
          (splineFunctionL rlog srcL cx (p.getD 0 0) (p.getD 1 0),
           splineFunctionL rlog srcL cy (p.getD 0 0) (p.getD 1 0)))
    | _ => .error (.valueError "Input coords must have shape (N,2)")

/-- A 2-D grayscale image: spatial extents and a total pixel function
(reads outside the extent never occur unguarded). -/
structure Img where
  rows : ℕ
  cols : ℕ
  pix : ℕ → ℕ → ℚ

/-- A pixel read with the boundary convention of
`scipy.ndimage.map_coordinates(..., mode="constant", cval=0.0)` (the default
the source relies on): out-of-range reads yield 0. -/
def pixAt (img : Img) (i j : ℤ) : ℚ :=
  if 0 ≤ i ∧ i < img.rows ∧ 0 ≤ j ∧ j < img.cols then img.pix i.toNat j.toNat
  else 0

/-- Order-1 (bilinear) resampling at a fractional coordinate, as
`map_coordinates` performs with `order=1`. -/
def bilinearSample (img : Img) (u v : ℚ) : ℚ :=
  (1 - (u - ⌊u⌋)) * (1 - (v - ⌊v⌋)) * pixAt img ⌊u⌋ ⌊v⌋ +
  (1 - (u - ⌊u⌋)) * (v - ⌊v⌋) * pixAt img ⌊u⌋ (⌊v⌋ + 1) +
  (u - ⌊u⌋) * (1 - (v - ⌊v⌋)) * pixAt img (⌊u⌋ + 1) ⌊v⌋ +
  (u - ⌊u⌋) * (v - ⌊v⌋) * pixAt img (⌊u⌋ + 1) (⌊v⌋ + 1)

/-- Order-0 (nearest-neighbour) resampling. -/
def nearestSample (img : Img) (u v : ℚ) : ℚ :=
  pixAt img ⌊u + 1 / 2⌋ ⌊v + 1 / 2⌋

/-- The final image resampling of `tps_warp`:
`map_coordinates(image, transform, order=interpolation_order)` for the two
orders the interface admits (the docstring: order 1 is linear, otherwise
nearest-neighbour). -/
def sampleOrd (ord : ℕ) (img : Img) (u v : ℚ) : ℚ :=
  if ord = 1 then bilinearSample img u v else nearestSample img u v

/-- `x_steps = (x_max - x_min) // grid_scaling` (Python floor division). -/
def gridSteps (lo hi : ℤ) (g : ℕ) : ℕ := ((hi - lo).fdiv (g : ℤ)).toNat

/-- Node `i` of `np.mgrid[lo : hi : steps * 1j]`: `steps` points evenly
spaced from `lo` to `hi`, both endpoints included (a single point sits at
`lo`). -/
def gridNode (lo hi : ℤ) (steps : ℕ) (i : ℕ) : ℚ :=
  if steps ≤ 1 then (lo : ℚ)
  else (lo : ℚ) + (i : ℚ) * ((hi : ℚ) - (lo : ℚ)) / ((steps : ℚ) - 1)

/-- `np.clip`. -/
def clampQ (v lo hi : ℚ) : ℚ := max lo (min v hi)

/-- The default value of the `order` parameter of
`scipy.ndimage.map_coordinates` (cubic spline interpolation), per the
documented signature of that external primitive. -/
def mapCoordinatesDefaultOrder : ℕ := 3

/-- The interpolation order the grid-upsampling calls
`sp.ndimage.map_coordinates(transform[0], [x_indices, y_indices])` in
`tps_warp` actually run with: the calls pass no `order` argument, so the
default applies. -/
def upsampleCallOrder : ℕ := mapCoordinatesDefaultOrder

/-- The shape-validation prologue of `tps_warp` over an arbitrary numpy
shape tuple: `image.shape[0] == 0 or image.shape[1] == 0` (short-circuit,
`IndexError` on a too-short tuple) raises the invalid-shape `ValueError`,
then `image.ndim not in (2, 3)` raises the unsupported-rank `ValueError`. -/
def warpShapeCheck (shape : List ℕ) : Except PyErr Unit :=
  match shape.get? 0 with
  | none => .error .indexError
  | some a =>
    if a = 0 then .error (.valueError "Cannot warp image with invalid shape")
    else
      match shape.get? 1 with
      | none => .error .indexError
      | some b =>
        if b = 0 then .error (.valueError "Cannot warp image with invalid shape")
        else if shape.length = 2 ∨ shape.length = 3 then .ok ()
        else .error (.valueError "Only 2D and 3D images are supported")

/-- `tps_warp` for a 2-D image, step for step:
1. reject a zero-sized image;
2. default `output_region` to `(0, 0, image.shape[0], image.shape[1])` and
   `grid_scaling` to 1;
3. sample the output region on an `x_steps × y_steps` endpoint-inclusive
   grid, estimate the inverse transform (`estimate(dst, src)`) and evaluate
   it at every grid node;
4. when `grid_scaling != 1`, upsample the two displacement grids to the
   `(x_max - x_min) × (y_max - y_min)` pixel grid through the external
   `map_coordinates` primitive, called here without an `order` argument and
   therefore abstracted as the parameter `mapCoords3` (applied to the
   clipped fractional coarse-grid indices computed by the source);
5. resample the image at the resulting coordinates with
   `order = interpolation_order`. -/
def tpsWarp (rlog : ℚ → ℚ)
    (mapCoords3 : (ℕ → ℕ → ℚ) → (ℕ → ℕ → ℚ) → (ℕ → ℕ → ℚ) → (ℕ → ℕ → ℚ))
    (img : Img) (m : ℕ) (src dst : ℕ → ℚ × ℚ)
    (outputRegion : Option (ℤ × ℤ × ℤ × ℤ)) (interpolationOrder : ℕ)
    (gridScaling : Option ℕ) : Except PyErr Img :=
  if img.rows = 0 ∨ img.cols = 0 then
    .error (.valueError "Cannot warp image with invalid shape")
  else
    let r := outputRegion.getD (0, 0, (img.rows : ℤ), (img.cols : ℤ))
    let xMin := r.1
    let yMin := r.2.1
    let xMax := r.2.2.1
    let yMax := r.2.2.2
    let g := gridScaling.getD 1
    let xSteps := gridSteps xMin xMax g
    let ySteps := gridSteps yMin yMax g
    match estimateT rlog m dst src with
    | .error e => .error e
    | .ok params =>
      let tX : ℕ → ℕ → ℚ := fun i j =>
        splineFunction rlog m dst (colFn params 0)
          (gridNode xMin xMax xSteps i) (gridNode yMin yMax ySteps j)
      let tY : ℕ → ℕ → ℚ := fun i j =>
        splineFunction rlog m dst (colFn params 1)
          (gridNode xMin xMax xSteps i) (gridNode yMin yMax ySteps j)
      if g ≠ 1 then
        let xIdx : ℕ → ℕ → ℚ := fun i _ =>
          clampQ (((xSteps : ℚ) - 1) * (((xMin + (i : ℤ)) : ℤ) - xMin) /
            ((xMax : ℚ) - (xMin : ℚ))) 0 ((xSteps : ℚ) - 1)
        let yIdx : ℕ → ℕ → ℚ := fun _ j =>
          clampQ (((ySteps : ℚ) - 1) * (((yMin + (j : ℤ)) : ℤ) - yMin) /
            ((yMax : ℚ) - (yMin : ℚ))) 0 ((ySteps : ℚ) - 1)
        let tXu := mapCoords3 tX xIdx yIdx
        let tYu := mapCoords3 tY xIdx yIdx
        .ok ⟨(xMax - xMin).toNat, (yMax - yMin).toNat,
          fun i j => sampleOrd interpolationOrder img (tXu i j) (tYu i j)⟩
      else
        .ok ⟨xSteps, ySteps,
          fun i j => sampleOrd interpolationOrder img (tX i j) (tY i j)⟩

/-- Reference warp written from the words of the spec: estimate the inverse
transform, evaluate it at every pixel of the full-resolution output grid
individually (no coarse grid, no upsampling), and resample the image there;
estimation failures propagate unchanged. -/
def specPerPixelWarp (rlog : ℚ → ℚ) (img : Img) (m : ℕ) (src dst : ℕ → ℚ × ℚ)
    (outputRegion : Option (ℤ × ℤ × ℤ × ℤ)) (interpolationOrder : ℕ) :
    Except PyErr Img :=
  if img.rows = 0 ∨ img.cols = 0 then
    .error (.valueError "Cannot warp image with invalid shape")
  else
    let r := outputRegion.getD (0, 0, (img.rows : ℤ), (img.cols : ℤ))
    let xMin := r.1
    let yMin := r.2.1
    let xMax := r.2.2.1
    let yMax := r.2.2.2
    let xSteps := gridSteps xMin xMax 1
    let ySteps := gridSteps yMin yMax 1
    match estimateT rlog m dst src with
    | .error e => .error e
    | .ok params =>
      .ok ⟨xSteps, ySteps, fun i j =>
        sampleOrd interpolationOrder img
          (splineFunction rlog m dst (colFn params 0)
            (gridNode xMin xMax xSteps i) (gridNode yMin yMax ySteps j))
          (splineFunction rlog m dst (colFn params 1)
            (gridNode xMin xMax xSteps i) (gridNode yMin yMax ySteps j))⟩

/-- A computable stand-in for the abstract logarithm used by concrete
witnesses (any function works for the structural theorems; this one keeps
the witness system matrix integer-valued and nonsingular). -/
def rlogW : ℚ → ℚ := fun q => if q < 30 then 1 else 2

/-- The constant-zero logarithm stand-in used where the value of the
logarithm is irrelevant. -/
def rlog0 : ℚ → ℚ := fun _ => 0

/-- The square source landmarks of the spec, `[[0,0],[0,5],[5,5],[5,0]]`. -/
def sq4L : List (List ℚ) := [[0, 0], [0, 5], [5, 5], [5, 0]]

/-- The rotated destination landmarks, `[[5,0],[0,0],[0,5],[5,5]]`. -/
def rot4L : List (List ℚ) := [[5, 0], [0, 0], [0, 5], [5, 5]]

/-- The square landmarks as a point function. -/
def sq4F : ℕ → ℚ × ℚ
  | 0 => (0, 0)
  | 1 => (0, 5)
  | 2 => (5, 5)
  | 3 => (5, 0)
  | _ + 4 => (0, 0)

/-- The rotated landmarks as a point function. -/
def rot4F : ℕ → ℚ × ℚ
  | 0 => (5, 0)
  | 1 => (0, 0)
  | 2 => (0, 5)
  | 3 => (5, 5)
  | _ + 4 => (0, 0)

/-- The integer entries of `systemL rlogW 4 sq4F` (checked entrywise
below): kernel values 25 and 100 plus the affine blocks. -/
def lzFun : ℕ → ℕ → ℤ
  | 0, 0 => 0 | 0, 1 => 25 | 0, 2 => 100 | 0, 3 => 25 | 0, 4 => 1 | 0, 5 => 0 | 0, 6 => 0
  | 1, 0 => 25 | 1, 1 => 0 | 1, 2 => 25 | 1, 3 => 100 | 1, 4 => 1 | 1, 5 => 0 | 1, 6 => 5
  | 2, 0 => 100 | 2, 1 => 25 | 2, 2 => 0 | 2, 3 => 25 | 2, 4 => 1 | 2, 5 => 5 | 2, 6 => 5
  | 3, 0 => 25 | 3, 1 => 100 | 3, 2 => 25 | 3, 3 => 0 | 3, 4 => 1 | 3, 5 => 5 | 3, 6 => 0
  | 4, 0 => 1 | 4, 1 => 1 | 4, 2 => 1 | 4, 3 => 1 | 4, 4 => 0 | 4, 5 => 0 | 4, 6 => 0
  | 5, 0 => 0 | 5, 1 => 0 | 5, 2 => 5 | 5, 3 => 5 | 5, 4 => 0 | 5, 5 => 0 | 5, 6 => 0
  | 6, 0 => 0 | 6, 1 => 5 | 6, 2 => 5 | 6, 3 => 0 | 6, 4 => 0 | 6, 5 => 0 | 6, 6 => 0
  | _, _ => 0

/-- `200` times the inverse of that system matrix, found offline and
verified by multiplication below. -/
def mzFun : ℕ → ℕ → ℤ
  | 0, 0 => 1 | 0, 1 => -1 | 0, 2 => 1 | 0, 3 => -1 | 0, 4 => 150 | 0, 5 => -20 | 0, 6 => -20
  | 1, 0 => -1 | 1, 1 => 1 | 1, 2 => -1 | 1, 3 => 1 | 1, 4 => 50 | 1, 5 => -20 | 1, 6 => 20
  | 2, 0 => 1 | 2, 1 => -1 | 2, 2 => 1 | 2, 3 => -1 | 2, 4 => -50 | 2, 5 => 20 | 2, 6 => 20
  | 3, 0 => -1 | 3, 1 => 1 | 3, 2 => -1 | 3, 3 => 1 | 3, 4 => 50 | 3, 5 => 20 | 3, 6 => -20
  | 4, 0 => 150 | 4, 1 => 50 | 4, 2 => -50 | 4, 3 => 50 | 4, 4 => 2500 | 4, 5 => -2000 | 4, 6 => -2000
  | 5, 0 => -20 | 5, 1 => -20 | 5, 2 => 20 | 5, 3 => 20 | 5, 4 => -2000 | 5, 5 => 800 | 5, 6 => 0
  | 6, 0 => -20 | 6, 1 => 20 | 6, 2 => 20 | 6, 3 => -20 | 6, 4 => -2000 | 6, 5 => 0 | 6, 6 => 800
  | _, _ => 0

/-- The witness system matrix over ℤ. -/
def LZ : Matrix (Fin 7) (Fin 7) ℤ := Matrix.of fun i j => lzFun (i : ℕ) (j : ℕ)

/-- `200` times its inverse over ℤ. -/
def MZ : Matrix (Fin 7) (Fin 7) ℤ := Matrix.of fun i j => mzFun (i : ℕ) (j : ℕ)

/-- The witness system matrix over ℚ. -/
def LW : Matrix (Fin 7) (Fin 7) ℚ := LZ.map (Int.castRingHom ℚ)

/-- The exact inverse of the witness system matrix over ℚ. -/
def MW : Matrix (Fin 7) (Fin 7) ℚ := (200 : ℚ)⁻¹ • MZ.map (Int.castRingHom ℚ)

/-- Landmarks with a duplicated point (rows 0 and 1 equal): they pass every
validation check of `estimate` but make the system matrix singular. -/
def dupL : List (List ℚ) := [[0, 0], [0, 0], [1, 0]]

/-- A well-shaped destination for `dupL`. -/
def dupDstL : List (List ℚ) := [[0, 0], [0, 1], [1, 0]]

/-- A `(3, 3)` landmark array (three 3-D points). -/
def arr33 : List (List ℚ) := [[0, 0, 0], [0, 1, 2], [1, 0, 3]]

/-- Another `(3, 3)` landmark array. -/
def w33 : List (List ℚ) := [[1, 2, 3], [4, 5, 6], [7, 8, 9]]

/-- A concrete 4×4 image. -/
def img4 : Img := ⟨4, 4, fun i j => (i : ℚ) * 4 + (j : ℚ)⟩

/-- A zero-height image. -/
def imgZ : Img := ⟨0, 5, fun _ _ => 0⟩

/-- A trivial stand-in for the external order-3 `map_coordinates`
primitive, used only to instantiate witnesses (the claims proved about the
warp never reach it). -/
def mapC0 : (ℕ → ℕ → ℚ) → (ℕ → ℕ → ℚ) → (ℕ → ℕ → ℚ) → (ℕ → ℕ → ℚ) :=
  fun t _ _ => t

/-! Entrywise verification that the witness system matrix
`systemL rlogW 4 sq4F` has the integer entries `lzFun`. -/

theorem cellL0x0 : systemL rlogW 4 sq4F ⟨0, by omega⟩ ⟨0, by omega⟩ = ((lzFun 0 0 : ℤ) : ℚ) := by
  have hv : lzFun 0 0 = 0 := rfl
  rw [hv]
  norm_num [systemL, radialDistance, kernelU, sqDist, pRow, sq4F, rlogW, smallEps, Matrix.of_apply]

theorem cellL0x1 : systemL rlogW 4 sq4F ⟨0, by omega⟩ ⟨1, by omega⟩ = ((lzFun 0 1 : ℤ) : ℚ) := by
  have hv : lzFun 0 1 = 25 := rfl
  rw [hv]
  norm_num [systemL, radialDistance, kernelU, sqDist, pRow, sq4F, rlogW, smallEps, Matrix.of_apply]

theorem cellL0x2 : systemL rlogW 4 sq4F ⟨0, by omega⟩ ⟨2, by omega⟩ = ((lzFun 0 2 : ℤ) : ℚ) := by
  have hv : lzFun 0 2 = 100 := rfl
  rw [hv]
  norm_num [systemL, radialDistance, kernelU, sqDist, pRow, sq4F, rlogW, smallEps, Matrix.of_apply]

theorem cellL0x3 : systemL rlogW 4 sq4F ⟨0, by omega⟩ ⟨3, by omega⟩ = ((lzFun 0 3 : ℤ) : ℚ) := by
  have hv : lzFun 0 3 = 25 := rfl
  rw [hv]
  norm_num [systemL, radialDistance, kernelU, sqDist, pRow, sq4F, rlogW, smallEps, Matrix.of_apply]

theorem cellL0x4 : systemL rlogW 4 sq4F ⟨0, by omega⟩ ⟨4, by omega⟩ = ((lzFun 0 4 : ℤ) : ℚ) := by
  have hv : lzFun 0 4 = 1 := rfl
  rw [hv]
  norm_num [systemL, radialDistance, kernelU, sqDist, pRow, sq4F, rlogW, smallEps, Matrix.of_apply]

theorem cellL0x5 : systemL rlogW 4 sq4F ⟨0, by omega⟩ ⟨5, by omega⟩ = ((lzFun 0 5 : ℤ) : ℚ) := by
  have hv : lzFun 0 5 = 0 := rfl
  rw [hv]
  norm_num [systemL, radialDistance, kernelU, sqDist, pRow, sq4F, rlogW, smallEps, Matrix.of_apply]

theorem cellL0x6 : systemL rlogW 4 sq4F ⟨0, by omega⟩ ⟨6, by omega⟩ = ((lzFun 0 6 : ℤ) : ℚ) := by
  have hv : lzFun 0 6 = 0 := rfl
  rw [hv]
  norm_num [systemL, radialDistance, kernelU, sqDist, pRow, sq4F, rlogW, smallEps, Matrix.of_apply]

theorem cellL1x0 : systemL rlogW 4 sq4F ⟨1, by omega⟩ ⟨0, by omega⟩ = ((lzFun 1 0 : ℤ) : ℚ) := by
  have hv : lzFun 1 0 = 25 := rfl
  rw [hv]
  norm_num [systemL, radialDistance, kernelU, sqDist, pRow, sq4F, rlogW, smallEps, Matrix.of_apply]

theorem cellL1x1 : systemL rlogW 4 sq4F ⟨1, by omega⟩ ⟨1, by omega⟩ = ((lzFun 1 1 : ℤ) : ℚ) := by
  have hv : lzFun 1 1 = 0 := rfl
  rw [hv]
  norm_num [systemL, radialDistance, kernelU, sqDist, pRow, sq4F, rlogW, smallEps, Matrix.of_apply]

theorem cellL1x2 : systemL rlogW 4 sq4F ⟨1, by omega⟩ ⟨2, by omega⟩ = ((lzFun 1 2 : ℤ) : ℚ) := by
  have hv : lzFun 1 2 = 25 := rfl
  rw [hv]
  norm_num [systemL, radialDistance, kernelU, sqDist, pRow, sq4F, rlogW, smallEps, Matrix.of_apply]

theorem cellL1x3 : systemL rlogW 4 sq4F ⟨1, by omega⟩ ⟨3, by omega⟩ = ((lzFun 1 3 : ℤ) : ℚ) := by
  have hv : lzFun 1 3 = 100 := rfl
  rw [hv]
  norm_num [systemL, radialDistance, kernelU, sqDist, pRow, sq4F, rlogW, smallEps, Matrix.of_apply]

theorem cellL1x4 : systemL rlogW 4 sq4F ⟨1, by omega⟩ ⟨4, by omega⟩ = ((lzFun 1 4 : ℤ) : ℚ) := by
  have hv : lzFun 1 4 = 1 := rfl
  rw [hv]
  norm_num [systemL, radialDistance, kernelU, sqDist, pRow, sq4F, rlogW, smallEps, Matrix.of_apply]

theorem cellL1x5 : systemL rlogW 4 sq4F ⟨1, by omega⟩ ⟨5, by omega⟩ = ((lzFun 1 5 : ℤ) : ℚ) := by
  have hv : lzFun 1 5 = 0 := rfl
  rw [hv]
  norm_num [systemL, radialDistance, kernelU, sqDist, pRow, sq4F, rlogW, smallEps, Matrix.of_apply]

theorem cellL1x6 : systemL rlogW 4 sq4F ⟨1, by omega⟩ ⟨6, by omega⟩ = ((lzFun 1 6 : ℤ) : ℚ) := by
  have hv : lzFun 1 6 = 5 := rfl
  rw [hv]
  norm_num [systemL, radialDistance, kernelU, sqDist, pRow, sq4F, rlogW, smallEps, Matrix.of_apply]

theorem cellL2x0 : systemL rlogW 4 sq4F ⟨2, by omega⟩ ⟨0, by omega⟩ = ((lzFun 2 0 : ℤ) : ℚ) := by
  have hv : lzFun 2 0 = 100 := rfl
  rw [hv]
  norm_num [systemL, radialDistance, kernelU, sqDist, pRow, sq4F, rlogW, smallEps, Matrix.of_apply]

theorem cellL2x1 : systemL rlogW 4 sq4F ⟨2, by omega⟩ ⟨1, by omega⟩ = ((lzFun 2 1 : ℤ) : ℚ) := by
  have hv : lzFun 2 1 = 25 := rfl
  rw [hv]
  norm_num [systemL, radialDistance, kernelU, sqDist, pRow, sq4F, rlogW, smallEps, Matrix.of_apply]

theorem cellL2x2 : systemL rlogW 4 sq4F ⟨2, by omega⟩ ⟨2, by omega⟩ = ((lzFun 2 2 : ℤ) : ℚ) := by
  have hv : lzFun 2 2 = 0 := rfl
  rw [hv]
  norm_num [systemL, radialDistance, kernelU, sqDist, pRow, sq4F, rlogW, smallEps, Matrix.of_apply]

theorem cellL2x3 : systemL rlogW 4 sq4F ⟨2, by omega⟩ ⟨3, by omega⟩ = ((lzFun 2 3 : ℤ) : ℚ) := by
  have hv : lzFun 2 3 = 25 := rfl
  rw [hv]
  norm_num [systemL, radialDistance, kernelU, sqDist, pRow, sq4F, rlogW, smallEps, Matrix.of_apply]

theorem cellL2x4 : systemL rlogW 4 sq4F ⟨2, by omega⟩ ⟨4, by omega⟩ = ((lzFun 2 4 : ℤ) : ℚ) := by
  have hv : lzFun 2 4 = 1 := rfl
  rw [hv]
  norm_num [systemL, radialDistance, kernelU, sqDist, pRow, sq4F, rlogW, smallEps, Matrix.of_apply]

theorem cellL2x5 : systemL rlogW 4 sq4F ⟨2, by omega⟩ ⟨5, by omega⟩ = ((lzFun 2 5 : ℤ) : ℚ) := by
  have hv : lzFun 2 5 = 5 := rfl
  rw [hv]
  norm_num [systemL, radialDistance, kernelU, sqDist, pRow, sq4F, rlogW, smallEps, Matrix.of_apply]

theorem cellL2x6 : systemL rlogW 4 sq4F ⟨2, by omega⟩ ⟨6, by omega⟩ = ((lzFun 2 6 : ℤ) : ℚ) := by
  have hv : lzFun 2 6 = 5 := rfl
  rw [hv]
  norm_num [systemL, radialDistance, kernelU, sqDist, pRow, sq4F, rlogW, smallEps, Matrix.of_apply]

theorem cellL3x0 : systemL rlogW 4 sq4F ⟨3, by omega⟩ ⟨0, by omega⟩ = ((lzFun 3 0 : ℤ) : ℚ) := by
  have hv : lzFun 3 0 = 25 := rfl
  rw [hv]
  norm_num [systemL, radialDistance, kernelU, sqDist, pRow, sq4F, rlogW, smallEps, Matrix.of_apply]

theorem cellL3x1 : systemL rlogW 4 sq4F ⟨3, by omega⟩ ⟨1, by omega⟩ = ((lzFun 3 1 : ℤ) : ℚ) := by
  have hv : lzFun 3 1 = 100 := rfl
  rw [hv]
  norm_num [systemL, radialDistance, kernelU, sqDist, pRow, sq4F, rlogW, smallEps, Matrix.of_apply]

theorem cellL3x2 : systemL rlogW 4 sq4F ⟨3, by omega⟩ ⟨2, by omega⟩ = ((lzFun 3 2 : ℤ) : ℚ) := by
  have hv : lzFun 3 2 = 25 := rfl
  rw [hv]
  norm_num [systemL, radialDistance, kernelU, sqDist, pRow, sq4F, rlogW, smallEps, Matrix.of_apply]

theorem cellL3x3 : systemL rlogW 4 sq4F ⟨3, by omega⟩ ⟨3, by omega⟩ = ((lzFun 3 3 : ℤ) : ℚ) := by
  have hv : lzFun 3 3 = 0 := rfl
  rw [hv]
  norm_num [systemL, radialDistance, kernelU, sqDist, pRow, sq4F, rlogW, smallEps, Matrix.of_apply]

theorem cellL3x4 : systemL rlogW 4 sq4F ⟨3, by omega⟩ ⟨4, by omega⟩ = ((lzFun 3 4 : ℤ) : ℚ) := by
  have hv : lzFun 3 4 = 1 := rfl
  rw [hv]
  norm_num [systemL, radialDistance, kernelU, sqDist, pRow, sq4F, rlogW, smallEps, Matrix.of_apply]

theorem cellL3x5 : systemL rlogW 4 sq4F ⟨3, by omega⟩ ⟨5, by omega⟩ = ((lzFun 3 5 : ℤ) : ℚ) := by
  have hv : lzFun 3 5 = 5 := rfl
  rw [hv]
  norm_num [systemL, radialDistance, kernelU, sqDist, pRow, sq4F, rlogW, smallEps, Matrix.of_apply]

theorem cellL3x6 : systemL rlogW 4 sq4F ⟨3, by omega⟩ ⟨6, by omega⟩ = ((lzFun 3 6 : ℤ) : ℚ) := by
  have hv : lzFun 3 6 = 0 := rfl
  rw [hv]
  norm_num [systemL, radialDistance, kernelU, sqDist, pRow, sq4F, rlogW, smallEps, Matrix.of_apply]

theorem cellL4x0 : systemL rlogW 4 sq4F ⟨4, by omega⟩ ⟨0, by omega⟩ = ((lzFun 4 0 : ℤ) : ℚ) := by
  have hv : lzFun 4 0 = 1 := rfl
  rw [hv]
  norm_num [systemL, radialDistance, kernelU, sqDist, pRow, sq4F, rlogW, smallEps, Matrix.of_apply]

theorem cellL4x1 : systemL rlogW 4 sq4F ⟨4, by omega⟩ ⟨1, by omega⟩ = ((lzFun 4 1 : ℤ) : ℚ) := by
  have hv : lzFun 4 1 = 1 := rfl
  rw [hv]
  norm_num [systemL, radialDistance, kernelU, sqDist, pRow, sq4F, rlogW, smallEps, Matrix.of_apply]

theorem cellL4x2 : systemL rlogW 4 sq4F ⟨4, by omega⟩ ⟨2, by omega⟩ = ((lzFun 4 2 : ℤ) : ℚ) := by
  have hv : lzFun 4 2 = 1 := rfl
  rw [hv]
  norm_num [systemL, radialDistance, kernelU, sqDist, pRow, sq4F, rlogW, smallEps, Matrix.of_apply]

theorem cellL4x3 : systemL rlogW 4 sq4F ⟨4, by omega⟩ ⟨3, by omega⟩ = ((lzFun 4 3 : ℤ) : ℚ) := by
  have hv : lzFun 4 3 = 1 := rfl
  rw [hv]
  norm_num [systemL, radialDistance, kernelU, sqDist, pRow, sq4F, rlogW, smallEps, Matrix.of_apply]

theorem cellL4x4 : systemL rlogW 4 sq4F ⟨4, by omega⟩ ⟨4, by omega⟩ = ((lzFun 4 4 : ℤ) : ℚ) := by
  have hv : lzFun 4 4 = 0 := rfl
  rw [hv]
  norm_num [systemL, radialDistance, kernelU, sqDist, pRow, sq4F, rlogW, smallEps, Matrix.of_apply]

theorem cellL4x5 : systemL rlogW 4 sq4F ⟨4, by omega⟩ ⟨5, by omega⟩ = ((lzFun 4 5 : ℤ) : ℚ) := by
  have hv : lzFun 4 5 = 0 := rfl
  rw [hv]
  norm_num [systemL, radialDistance, kernelU, sqDist, pRow, sq4F, rlogW, smallEps, Matrix.of_apply]

theorem cellL4x6 : systemL rlogW 4 sq4F ⟨4, by omega⟩ ⟨6, by omega⟩ = ((lzFun 4 6 : ℤ) : ℚ) := by
  have hv : lzFun 4 6 = 0 := rfl
  rw [hv]
  norm_num [systemL, radialDistance, kernelU, sqDist, pRow, sq4F, rlogW, smallEps, Matrix.of_apply]

theorem cellL5x0 : systemL rlogW 4 sq4F ⟨5, by omega⟩ ⟨0, by omega⟩ = ((lzFun 5 0 : ℤ) : ℚ) := by
  have hv : lzFun 5 0 = 0 := rfl
  rw [hv]
  norm_num [systemL, radialDistance, kernelU, sqDist, pRow, sq4F, rlogW, smallEps, Matrix.of_apply]

theorem cellL5x1 : systemL rlogW 4 sq4F ⟨5, by omega⟩ ⟨1, by omega⟩ = ((lzFun 5 1 : ℤ) : ℚ) := by
  have hv : lzFun 5 1 = 0 := rfl
  rw [hv]
  norm_num [systemL, radialDistance, kernelU, sqDist, pRow, sq4F, rlogW, smallEps, Matrix.of_apply]

theorem cellL5x2 : systemL rlogW 4 sq4F ⟨5, by omega⟩ ⟨2, by omega⟩ = ((lzFun 5 2 : ℤ) : ℚ) := by
  have hv : lzFun 5 2 = 5 := rfl
  rw [hv]
  norm_num [systemL, radialDistance, kernelU, sqDist, pRow, sq4F, rlogW, smallEps, Matrix.of_apply]

theorem cellL5x3 : systemL rlogW 4 sq4F ⟨5, by omega⟩ ⟨3, by omega⟩ = ((lzFun 5 3 : ℤ) : ℚ) := by
  have hv : lzFun 5 3 = 5 := rfl
  rw [hv]
  norm_num [systemL, radialDistance, kernelU, sqDist, pRow, sq4F, rlogW, smallEps, Matrix.of_apply]

theorem cellL5x4 : systemL rlogW 4 sq4F ⟨5, by omega⟩ ⟨4, by omega⟩ = ((lzFun 5 4 : ℤ) : ℚ) := by
  have hv : lzFun 5 4 = 0 := rfl
  rw [hv]
  norm_num [systemL, radialDistance, kernelU, sqDist, pRow, sq4F, rlogW, smallEps, Matrix.of_apply]

theorem cellL5x5 : systemL rlogW 4 sq4F ⟨5, by omega⟩ ⟨5, by omega⟩ = ((lzFun 5 5 : ℤ) : ℚ) := by
  have hv : lzFun 5 5 = 0 := rfl
  rw [hv]
  norm_num [systemL, radialDistance, kernelU, sqDist, pRow, sq4F, rlogW, smallEps, Matrix.of_apply]

theorem cellL5x6 : systemL rlogW 4 sq4F ⟨5, by omega⟩ ⟨6, by omega⟩ = ((lzFun 5 6 : ℤ) : ℚ) := by
  have hv : lzFun 5 6 = 0 := rfl
  rw [hv]
  norm_num [systemL, radialDistance, kernelU, sqDist, pRow, sq4F, rlogW, smallEps, Matrix.of_apply]

theorem cellL6x0 : systemL rlogW 4 sq4F ⟨6, by omega⟩ ⟨0, by omega⟩ = ((lzFun 6 0 : ℤ) : ℚ) := by
  have hv : lzFun 6 0 = 0 := rfl
  rw [hv]
  norm_num [systemL, radialDistance, kernelU, sqDist, pRow, sq4F, rlogW, smallEps, Matrix.of_apply]

theorem cellL6x1 : systemL rlogW 4 sq4F ⟨6, by omega⟩ ⟨1, by omega⟩ = ((lzFun 6 1 : ℤ) : ℚ) := by
  have hv : lzFun 6 1 = 5 := rfl
  rw [hv]
  norm_num [systemL, radialDistance, kernelU, sqDist, pRow, sq4F, rlogW, smallEps, Matrix.of_apply]

theorem cellL6x2 : systemL rlogW 4 sq4F ⟨6, by omega⟩ ⟨2, by omega⟩ = ((lzFun 6 2 : ℤ) : ℚ) := by
  have hv : lzFun 6 2 = 5 := rfl
  rw [hv]
  norm_num [systemL, radialDistance, kernelU, sqDist, pRow, sq4F, rlogW, smallEps, Matrix.of_apply]

theorem cellL6x3 : systemL rlogW 4 sq4F ⟨6, by omega⟩ ⟨3, by omega⟩ = ((lzFun 6 3 : ℤ) : ℚ) := by
  have hv : lzFun 6 3 = 0 := rfl
  rw [hv]
  norm_num [systemL, radialDistance, kernelU, sqDist, pRow, sq4F, rlogW, smallEps, Matrix.of_apply]

theorem cellL6x4 : systemL rlogW 4 sq4F ⟨6, by omega⟩ ⟨4, by omega⟩ = ((lzFun 6 4 : ℤ) : ℚ) := by
  have hv : lzFun 6 4 = 0 := rfl
  rw [hv]
  norm_num [systemL, radialDistance, kernelU, sqDist, pRow, sq4F, rlogW, smallEps, Matrix.of_apply]

theorem cellL6x5 : systemL rlogW 4 sq4F ⟨6, by omega⟩ ⟨5, by omega⟩ = ((lzFun 6 5 : ℤ) : ℚ) := by
  have hv : lzFun 6 5 = 0 := rfl
  rw [hv]
  norm_num [systemL, radialDistance, kernelU, sqDist, pRow, sq4F, rlogW, smallEps, Matrix.of_apply]

theorem cellL6x6 : systemL rlogW 4 sq4F ⟨6, by omega⟩ ⟨6, by omega⟩ = ((lzFun 6 6 : ℤ) : ℚ) := by
  have hv : lzFun 6 6 = 0 := rfl
  rw [hv]
  norm_num [systemL, radialDistance, kernelU, sqDist, pRow, sq4F, rlogW, smallEps, Matrix.of_apply]

theorem lw_cells : ∀ iv jv (h1 : iv < 4 + 3) (h2 : jv < 4 + 3),
    systemL rlogW 4 sq4F ⟨iv, h1⟩ ⟨jv, h2⟩ = ((lzFun iv jv : ℤ) : ℚ) := by
  intro iv jv h1 h2
  rcases iv with _ | _ | _ | _ | _ | _ | _ | iv <;>
    rcases jv with _ | _ | _ | _ | _ | _ | _ | jv
  · exact cellL0x0
  · exact cellL0x1
  · exact cellL0x2
  · exact cellL0x3
  · exact cellL0x4
  · exact cellL0x5
  · exact cellL0x6
  · omega
  · exact cellL1x0
  · exact cellL1x1
  · exact cellL1x2
  · exact cellL1x3
  · exact cellL1x4
  · exact cellL1x5
  · exact cellL1x6
  · omega
  · exact cellL2x0
  · exact cellL2x1
  · exact cellL2x2
  · exact cellL2x3
  · exact cellL2x4
  · exact cellL2x5
  · exact cellL2x6
  · omega
  · exact cellL3x0
  · exact cellL3x1
  · exact cellL3x2
  · exact cellL3x3
  · exact cellL3x4
  · exact cellL3x5
  · exact cellL3x6
  · omega
  · exact cellL4x0
  · exact cellL4x1
  · exact cellL4x2
  · exact cellL4x3
  · exact cellL4x4
  · exact cellL4x5
  · exact cellL4x6
  · omega
  · exact cellL5x0
  · exact cellL5x1
  · exact cellL5x2
  · exact cellL5x3
  · exact cellL5x4
  · exact cellL5x5
  · exact cellL5x6
  · omega
  · exact cellL6x0
  · exact cellL6x1
  · exact cellL6x2
  · exact cellL6x3
  · exact cellL6x4
  · exact cellL6x5
  · exact cellL6x6
  · omega
  · omega
  · omega
  · omega
  · omega
  · omega
  · omega
  · omega
  · omega

theorem systemL_eq_LW : systemL rlogW 4 sq4F = LW := by
  apply Matrix.ext
  intro i j
  rcases i with ⟨iv, hi⟩
  rcases j with ⟨jv, hj⟩
  exact lw_cells iv jv hi hj

theorem lz_mul_mz : LZ * MZ = (200 : ℤ) • 1 := by
  apply Matrix.ext
  decide

theorem lw_mul_mw : LW * MW = 1 := by
  unfold LW MW
  rw [Matrix.mul_smul, ← Matrix.map_mul, lz_mul_mz, Matrix.smul_one_eq_diagonal,
    Matrix.diagonal_map (by norm_num)]
  have hd : (Matrix.diagonal fun _ : Fin 7 => ((200 : ℚ))) = (200 : ℚ) • 1 :=
    (Matrix.smul_one_eq_diagonal _).symm
  have h2 : Matrix.diagonal (fun i : Fin 7 => (Int.castRingHom ℚ) ((fun _ => (200 : ℤ)) i))
      = (200 : ℚ) • 1 := by
    simpa using hd
  rw [h2, smul_smul]
  norm_num

theorem detW_ne : (systemL rlogW 4 sq4F).det ≠ 0 := by
  have hm : systemL rlogW 4 sq4F * MW = 1 := by rw [systemL_eq_LW]; exact lw_mul_mw
  exact Matrix.det_ne_zero_of_right_inverse hm

theorem ptRow_sq4L : ptRow sq4L = sq4F := by
  funext n
  rcases n with _ | _ | _ | _ | n <;> rfl

theorem ptRow_rot4L : ptRow rot4L = rot4F := by
  funext n
  rcases n with _ | _ | _ | _ | n <;> rfl

theorem sqDist_comm (p q : ℚ × ℚ) : sqDist p q = sqDist q p := by
  unfold sqDist
  ring

theorem mul_matInv {k : ℕ} (A : Matrix (Fin k) (Fin k) ℚ) (h : A.det ≠ 0) :
    A * matInv A = 1 := by
  unfold matInv
  rw [Matrix.mul_smul, Matrix.mul_adjugate, smul_smul, inv_mul_cancel₀ h,
    one_smul]

/-- Evaluating `_spline_function` at source landmark `i` with a coefficient
column computes row `i` of `L * C`: the defining link between the solved
linear system and the evaluator. -/
theorem spline_eq_row (rlog : ℚ → ℚ) (n : ℕ) (pts : ℕ → ℚ × ℚ)
    (C : Matrix (Fin (n + 3)) (Fin 2) ℚ) (c : Fin 2) (i : ℕ) (hi : i < n) :
    splineFunction rlog n pts (colFn C c) (pts i).1 (pts i).2
      = (systemL rlog n pts * C) ⟨i, by omega⟩ c := by
  rw [Matrix.mul_apply, Fin.sum_univ_add, Fin.sum_univ_three]
  have hK : ∀ j : Fin n,
      systemL rlog n pts ⟨i, by omega⟩ (Fin.castAdd 3 j) * C (Fin.castAdd 3 j) c
        = colFn C c (j : ℕ) *
          kernelU rlog (sqDist (pts (j : ℕ)) ((pts i).1, (pts i).2)) := by
    intro j
    have hca : Fin.castAdd 3 j = (⟨(j : ℕ), by omega⟩ : Fin (n + 3)) := rfl
    rw [hca]
    have h1 : systemL rlog n pts ⟨i, by omega⟩ ⟨(j : ℕ), by omega⟩
        = kernelU rlog (sqDist (pts i) (pts (j : ℕ))) := by
      simp [systemL, Matrix.of_apply, radialDistance, hi, j.isLt]
    have h2 : C ⟨(j : ℕ), by omega⟩ c = colFn C c (j : ℕ) := by
      have hj3 : (j : ℕ) < n + 3 := by omega
      simp [colFn, hj3]
    rw [h1, h2, sqDist_comm]
    have hpe : ((pts i).1, (pts i).2) = pts i := rfl
    rw [hpe]
    ring
  have hA : ∀ k : Fin 3,
      systemL rlog n pts ⟨i, by omega⟩ (Fin.natAdd n k) = pRow pts i (k : ℕ) := by
    intro k
    have hna : Fin.natAdd n k = (⟨n + (k : ℕ), by omega⟩ : Fin (n + 3)) := rfl
    rw [hna]
    have hnk : ¬ (n + (k : ℕ) < n) := by omega
    simp [systemL, Matrix.of_apply, hi, hnk]
  have hC : ∀ k : Fin 3,
      C (Fin.natAdd n k) c = colFn C c (n + (k : ℕ)) := by
    intro k
    have hna : Fin.natAdd n k = (⟨n + (k : ℕ), by omega⟩ : Fin (n + 3)) := rfl
    rw [hna]
    simp [colFn]
  rw [Finset.sum_congr rfl fun j _ => hK j]
  rw [hA 0, hA 1, hA 2, hC 0, hC 1, hC 2]
  unfold splineFunction pRow
  rw [← Fin.sum_univ_eq_sum_range
    (fun k => colFn C c k * kernelU rlog (sqDist (pts k) ((pts i).1, (pts i).2))) n]
  norm_num
  ring

theorem estimateT_ok (rlog : ℚ → ℚ) (n : ℕ) (srcP dstP : ℕ → ℚ × ℚ)
    (params : Matrix (Fin (n + 3)) (Fin 2) ℚ)
    (h : estimateT rlog n srcP dstP = .ok params) :
    (systemL rlog n srcP).det ≠ 0 ∧
      params = matInv (systemL rlog n srcP) * systemV n dstP := by
  unfold estimateT at h
  split at h
  · cases h
  · split at h
    · cases h
    · next h2 =>
        injection h with h
        exact ⟨h2, h.symm⟩

/-- TPS interpolation exactness in exact arithmetic: a successful estimate
maps every source landmark exactly to its destination landmark. -/
theorem tps_interpolates (rlog : ℚ → ℚ) (n : ℕ) (srcP dstP : ℕ → ℚ × ℚ)
    (params : Matrix (Fin (n + 3)) (Fin 2) ℚ)
    (h : estimateT rlog n srcP dstP = .ok params) (i : ℕ) (hi : i < n) :
    splineFunction rlog n srcP (colFn params 0) (srcP i).1 (srcP i).2 = (dstP i).1
  ∧ splineFunction rlog n srcP (colFn params 1) (srcP i).1 (srcP i).2 = (dstP i).2 := by
  obtain ⟨hdet, hp⟩ := estimateT_ok rlog n srcP dstP params h
  subst hp
  have hLP : systemL rlog n srcP * (matInv (systemL rlog n srcP) * systemV n dstP)
      = systemV n dstP := by
    rw [← Matrix.mul_assoc, mul_matInv _ hdet, Matrix.one_mul]
  constructor
  · rw [spline_eq_row rlog n srcP _ 0 i hi, hLP]
    simp [systemV, Matrix.of_apply, hi]
  · rw [spline_eq_row rlog n srcP _ 1 i hi, hLP]
    simp [systemV, Matrix.of_apply, hi]

theorem estT_sq : estimateT rlogW 4 sq4F rot4F
    = .ok (matInv (systemL rlogW 4 sq4F) * systemV 4 rot4F) := by
  unfold estimateT
  split
  · next h => exact absurd h (by norm_num)
  · split
    · next h => exact absurd h detW_ne
    · rfl

theorem solveStep_pos (rlog : ℚ → ℚ) (srcA dstA : List (List ℚ))
    (h : (systemL rlog srcA.length (ptRow srcA)).det ≠ 0) :
    solveStep rlog srcA dstA
      = .ok (toLists (matInv (systemL rlog srcA.length (ptRow srcA)) *
          systemV srcA.length (ptRow dstA))) := by
  unfold solveStep
  rw [if_neg h]

theorem solveStep_neg (rlog : ℚ → ℚ) (srcA dstA : List (List ℚ))
    (h : (systemL rlog srcA.length (ptRow srcA)).det = 0) :
    solveStep rlog srcA dstA = .error .linAlgError := by
  unfold solveStep
  rw [if_pos h]

theorem estimate_eq_body (rlog : ℚ → ℚ) (t : TpsTransform)
    (srcIn dstIn : PyInput) (s2 d2 : List (List ℚ))
    (h1 : ensure2d srcIn = .ok s2) (h2 : ensure2d dstIn = .ok d2) :
    TpsTransform.estimate rlog t srcIn dstIn = estimateBody rlog t s2 d2 := by
  unfold TpsTransform.estimate
  rw [h1, h2]

theorem estimate_validation_error (rlog : ℚ → ℚ) (t : TpsTransform)
    (srcIn dstIn : PyInput) (e1 : PyErr) (h1 : ensure2d srcIn = .error e1) :
    TpsTransform.estimate rlog t srcIn dstIn = (.error e1, t) := by
  unfold TpsTransform.estimate
  rw [h1]

theorem estimate_validation_error2 (rlog : ℚ → ℚ) (t : TpsTransform)
    (srcIn dstIn : PyInput) (s2 : List (List ℚ)) (e2 : PyErr)
    (h1 : ensure2d srcIn = .ok s2) (h2 : ensure2d dstIn = .error e2) :
    TpsTransform.estimate rlog t srcIn dstIn = (.error e2, t) := by
  unfold TpsTransform.estimate
  rw [h1, h2]

theorem body_shape_mismatch (rlog : ℚ → ℚ) (t : TpsTransform)
    (s2 d2 : List (List ℚ)) (h3 : shape2 s2 ≠ shape2 d2) :
    estimateBody rlog t s2 d2
      = (.error (.valueError "src and dst shape must be identical"), t) := by
  unfold estimateBody
  rw [if_pos h3]

theorem body_broadcast (rlog : ℚ → ℚ) (t : TpsTransform)
    (s2 d2 : List (List ℚ)) (h3 : shape2 s2 = shape2 d2)
    (h4 : (s2.headD []).length ≠ 2) :
    estimateBody rlog t s2 d2
      = (.error .broadcastError, { t with src := some s2, dst := some d2 }) := by
  unfold estimateBody
  rw [if_neg (fun hc => hc h3), if_pos (by omega)]

theorem body_solve_error (rlog : ℚ → ℚ) (t : TpsTransform)
    (s2 d2 : List (List ℚ)) (e3 : PyErr) (h3 : shape2 s2 = shape2 d2)
    (h4 : (s2.headD []).length = 2) (hsv : solveStep rlog s2 d2 = .error e3) :
    estimateBody rlog t s2 d2
      = (.error e3, { t with src := some s2, dst := some d2 }) := by
  unfold estimateBody
  rw [if_neg (fun hc => hc h3), if_neg (by omega), hsv]

theorem body_success (rlog : ℚ → ℚ) (t : TpsTransform)
    (s2 d2 p : List (List ℚ)) (h3 : shape2 s2 = shape2 d2)
    (h4 : (s2.headD []).length = 2) (hsv : solveStep rlog s2 d2 = .ok p) :
    estimateBody rlog t s2 d2
      = (.ok true, ⟨true, some p, some s2, some d2⟩) := by
  unfold estimateBody
  rw [if_neg (fun hc => hc h3), if_neg (by omega), hsv]

theorem estimateRun_sq : TpsTransform.estimate rlogW TpsTransform.init
      (.arr2 sq4L) (.arr2 rot4L)
    = (.ok true,
       ⟨true,
        some (toLists (matInv (systemL rlogW sq4L.length (ptRow sq4L)) *
          systemV sq4L.length (ptRow rot4L))),
        some sq4L, some rot4L⟩) := by
  have hd4 : (4 : ℕ) = sq4L.length := rfl
  have hdlen : (systemL rlogW sq4L.length sq4F).det ≠ 0 := hd4 ▸ detW_ne
  have hd : (systemL rlogW sq4L.length (ptRow sq4L)).det ≠ 0 := by
    rw [ptRow_sq4L]
    exact hdlen
  have hs := solveStep_pos rlogW sq4L rot4L hd
  exact (estimate_eq_body rlogW TpsTransform.init (.arr2 sq4L) (.arr2 rot4L) sq4L rot4L rfl rfl).trans
    (body_success rlogW TpsTransform.init sq4L rot4L _ rfl rfl hs)

theorem dup_rows_eq (rlog : ℚ → ℚ) :
    systemL rlog dupL.length (ptRow dupL) ⟨0, by decide⟩
      = systemL rlog dupL.length (ptRow dupL) ⟨1, by decide⟩ := by
  funext j
  rfl

theorem dup_det_zero (rlog : ℚ → ℚ) :
    (systemL rlog dupL.length (ptRow dupL)).det = 0 :=
  Matrix.det_zero_of_row_eq (by decide) (dup_rows_eq rlog)

theorem estimateRun_dup : TpsTransform.estimate rlog0 TpsTransform.init
      (.arr2 dupL) (.arr2 dupDstL)
    = (.error .linAlgError,
       ⟨false, none, some dupL, some dupDstL⟩) := by
  have hs := solveStep_neg rlog0 dupL dupDstL (dup_det_zero rlog0)
  exact (estimate_eq_body rlog0 TpsTransform.init (.arr2 dupL) (.arr2 dupDstL) dupL dupDstL rfl rfl).trans
    (body_solve_error rlog0 TpsTransform.init dupL dupDstL _ rfl rfl hs)

theorem estimateRun_arr33 : TpsTransform.estimate rlog0 TpsTransform.init
      (.arr2 arr33) (.arr2 arr33)
    = (.error .broadcastError,
       ⟨false, none, some arr33, some arr33⟩) := rfl

theorem toLists_length {r c : ℕ} (M : Matrix (Fin r) (Fin c) ℚ) :
    (toLists M).length = r := by
  simp [toLists]

theorem toLists_row_length {r c : ℕ} (M : Matrix (Fin r) (Fin c) ℚ) :
    ∀ row ∈ toLists M, row.length = c := by
  intro row hrow
  simp only [toLists, List.mem_map] at hrow
  obtain ⟨i, _, hr⟩ := hrow
  rw [← hr]
  simp

theorem solveStep_ok (rlog : ℚ → ℚ) (srcA dstA : List (List ℚ))
    (p : List (List ℚ)) (h : solveStep rlog srcA dstA = .ok p) :
    p = toLists (matInv (systemL rlog srcA.length (ptRow srcA)) *
      systemV srcA.length (ptRow dstA)) := by
  unfold solveStep at h
  split at h
  · cases h
  · injection h with h
    exact h.symm

theorem sum_map_singleton (xs : List ℚ) :
    ((xs.map fun x => [x]).map List.length).sum = xs.length := by
  induction xs with
  | nil => rfl
  | cons a tl ih =>
      simp only [List.map_map, List.map_cons, List.sum_cons, List.length_cons,
        Function.comp, List.length_nil] at *
      omega

/-- Every run of `estimate` takes one of three observable shapes: a
validation failure with the state untouched, an assembly or solve failure
with only `src` and `dst` updated, or success with all fields set. -/
theorem estimate_cases (rlog : ℚ → ℚ) (t : TpsTransform)
    (srcIn dstIn : PyInput) :
    (∃ e, TpsTransform.estimate rlog t srcIn dstIn = (.error e, t))
  ∨ (∃ e s2 d2, ensure2d srcIn = .ok s2 ∧ ensure2d dstIn = .ok d2 ∧
      TpsTransform.estimate rlog t srcIn dstIn
        = (.error e, { t with src := some s2, dst := some d2 }))
  ∨ (∃ s2 d2 p, ensure2d srcIn = .ok s2 ∧ ensure2d dstIn = .ok d2 ∧
      solveStep rlog s2 d2 = .ok p ∧
      TpsTransform.estimate rlog t srcIn dstIn
        = (.ok true, ⟨true, some p, some s2, some d2⟩)) := by
  rcases h1 : ensure2d srcIn with e1 | s2
  · exact Or.inl ⟨e1, estimate_validation_error rlog t srcIn dstIn e1 h1⟩
  · rcases h2 : ensure2d dstIn with e2 | d2
    · exact Or.inl ⟨e2, estimate_validation_error2 rlog t srcIn dstIn s2 e2 h1 h2⟩
    · have hb := estimate_eq_body rlog t srcIn dstIn s2 d2 h1 h2
      by_cases h3 : shape2 s2 ≠ shape2 d2
      · exact Or.inl ⟨_, hb.trans (body_shape_mismatch rlog t s2 d2 h3)⟩
      · rw [not_not] at h3
        by_cases h4 : (s2.headD []).length = 2
        · rcases hsv : solveStep rlog s2 d2 with e3 | p
          · exact Or.inr (Or.inl ⟨e3, s2, d2, rfl, rfl,
              hb.trans (body_solve_error rlog t s2 d2 e3 h3 h4 hsv)⟩)
          · exact Or.inr (Or.inr ⟨s2, d2, p, rfl, rfl, hsv,
              hb.trans (body_success rlog t s2 d2 p h3 h4 hsv)⟩)
        · exact Or.inr (Or.inl ⟨.broadcastError, s2, d2, rfl, rfl,
            hb.trans (body_broadcast rlog t s2 d2 h3 h4)⟩)

/-- C1 counterexample: the claim that `estimate` is atomic fails on the
code.  Running `estimate` on duplicated landmarks (which pass every
validation check but make `L` singular, so `np.linalg.inv` raises) raises
`LinAlgError`, yet the state afterwards differs from the state before the
call, because `self.src` and `self.dst` were assigned before the solve. -/
theorem c1_counterexample :
    (TpsTransform.estimate rlog0 TpsTransform.init
        (.arr2 dupL) (.arr2 dupDstL)).1 = .error .linAlgError
  ∧ (TpsTransform.estimate rlog0 TpsTransform.init
        (.arr2 dupL) (.arr2 dupDstL)).2.src = some dupL
  ∧ TpsTransform.init.src = none := by
  rw [estimateRun_dup]
  exact ⟨rfl, rfl, rfl⟩

/-- C1 (amended): `estimate` is atomic exactly across its validation phase,
and the outcome is determined by the phase that fails.  A raise during
validation — `_ensure_2d` on either input, or the shape-mismatch check —
returns that error with the state exactly the pre-call state.  A raise after
validation — the numpy broadcast failure while assembling `L` when the point
dimension is not 2, or `LinAlgError` from the solve on a singular system —
returns that error with the state the pre-call state with only `src` and
`dst` replaced by the validated inputs (`parameters` and `_estimated` keep
their prior values).  On success the returned value is `True` and all four
fields are set together.  Each conjunct pins the exact result pair of its
phase, and the six hypothesis sets exhaust every run of `estimate`. -/
theorem c1_estimate_atomicity (rlog : ℚ → ℚ) (t : TpsTransform)
    (srcIn dstIn : PyInput) :
    (∀ e, ensure2d srcIn = .error e →
      TpsTransform.estimate rlog t srcIn dstIn = (.error e, t))
  ∧ (∀ s2 e, ensure2d srcIn = .ok s2 → ensure2d dstIn = .error e →
      TpsTransform.estimate rlog t srcIn dstIn = (.error e, t))
  ∧ (∀ s2 d2, ensure2d srcIn = .ok s2 → ensure2d dstIn = .ok d2 →
      shape2 s2 ≠ shape2 d2 →
      TpsTransform.estimate rlog t srcIn dstIn
        = (.error (.valueError "src and dst shape must be identical"), t))
  ∧ (∀ s2 d2, ensure2d srcIn = .ok s2 → ensure2d dstIn = .ok d2 →
      shape2 s2 = shape2 d2 → (s2.headD []).length ≠ 2 →
      TpsTransform.estimate rlog t srcIn dstIn
        = (.error .broadcastError, { t with src := some s2, dst := some d2 }))
  ∧ (∀ s2 d2 e, ensure2d srcIn = .ok s2 → ensure2d dstIn = .ok d2 →
      shape2 s2 = shape2 d2 → (s2.headD []).length = 2 →
      solveStep rlog s2 d2 = .error e →
      TpsTransform.estimate rlog t srcIn dstIn
        = (.error e, { t with src := some s2, dst := some d2 }))
  ∧ (∀ s2 d2 p, ensure2d srcIn = .ok s2 → ensure2d dstIn = .ok d2 →
      shape2 s2 = shape2 d2 → (s2.headD []).length = 2 →
      solveStep rlog s2 d2 = .ok p →
      TpsTransform.estimate rlog t srcIn dstIn
        = (.ok true, ⟨true, some p, some s2, some d2⟩)) := by
  refine ⟨?_, ?_, ?_, ?_, ?_, ?_⟩
  · exact fun e h1 => estimate_validation_error rlog t srcIn dstIn e h1
  · exact fun s2 e h1 h2 =>
      estimate_validation_error2 rlog t srcIn dstIn s2 e h1 h2
  · exact fun s2 d2 h1 h2 h3 =>
      (estimate_eq_body rlog t srcIn dstIn s2 d2 h1 h2).trans
        (body_shape_mismatch rlog t s2 d2 h3)
  · exact fun s2 d2 h1 h2 h3 h4 =>
      (estimate_eq_body rlog t srcIn dstIn s2 d2 h1 h2).trans
        (body_broadcast rlog t s2 d2 h3 h4)
  · exact fun s2 d2 e h1 h2 h3 h4 h5 =>
      (estimate_eq_body rlog t srcIn dstIn s2 d2 h1 h2).trans
        (body_solve_error rlog t s2 d2 e h3 h4 h5)
  · exact fun s2 d2 p h1 h2 h3 h4 h5 =>
      (estimate_eq_body rlog t srcIn dstIn s2 d2 h1 h2).trans
        (body_success rlog t s2 d2 p h3 h4 h5)

/-- C1 witness: the phase theorem applied at concrete inputs realising five
of its phases — a `_ensure_2d` failure and a shape mismatch leave the state
exactly the initial one, a 3-D-point pair ends in a broadcast error with
`src`/`dst` set, duplicated landmarks end in `LinAlgError` with `src`/`dst`
set, and the square landmarks end in a fully set state. -/
theorem c1_witness :
    TpsTransform.estimate rlog0 TpsTransform.init (.scalar 5) (.arr2 rot4L)
      = (.error (.valueError "Array must be be 2D."), TpsTransform.init)
  ∧ TpsTransform.estimate rlog0 TpsTransform.init (.arr2 sq4L) (.arr2 dupL)
      = (.error (.valueError "src and dst shape must be identical"),
         TpsTransform.init)
  ∧ TpsTransform.estimate rlog0 TpsTransform.init (.arr2 arr33) (.arr2 arr33)
      = (.error .broadcastError,
         { TpsTransform.init with src := some arr33, dst := some arr33 })
  ∧ TpsTransform.estimate rlog0 TpsTransform.init (.arr2 dupL) (.arr2 dupDstL)
      = (.error .linAlgError,
         { TpsTransform.init with src := some dupL, dst := some dupDstL })
  ∧ TpsTransform.estimate rlogW TpsTransform.init (.arr2 sq4L) (.arr2 rot4L)
      = (.ok true,
         ⟨true,
          some (toLists (matInv (systemL rlogW sq4L.length (ptRow sq4L)) *
            systemV sq4L.length (ptRow rot4L))),
          some sq4L, some rot4L⟩) := by
  refine ⟨?_, ?_, ?_, ?_, ?_⟩
  · exact (c1_estimate_atomicity rlog0 TpsTransform.init
      (.scalar 5) (.arr2 rot4L)).1 (.valueError "Array must be be 2D.") rfl
  · exact (c1_estimate_atomicity rlog0 TpsTransform.init
      (.arr2 sq4L) (.arr2 dupL)).2.2.1 sq4L dupL rfl rfl (by decide)
  · exact (c1_estimate_atomicity rlog0 TpsTransform.init
      (.arr2 arr33) (.arr2 arr33)).2.2.2.1 arr33 arr33 rfl rfl rfl (by decide)
  · exact (c1_estimate_atomicity rlog0 TpsTransform.init
      (.arr2 dupL) (.arr2 dupDstL)).2.2.2.2.1 dupL dupDstL .linAlgError
      rfl rfl rfl rfl (solveStep_neg rlog0 dupL dupDstL (dup_det_zero rlog0))
  · have hd4 : (4 : ℕ) = sq4L.length := rfl
    have hd : (systemL rlogW sq4L.length (ptRow sq4L)).det ≠ 0 := by
      rw [ptRow_sq4L]
      exact hd4 ▸ detW_ne
    exact (c1_estimate_atomicity rlogW TpsTransform.init
      (.arr2 sq4L) (.arr2 rot4L)).2.2.2.2.2 sq4L rot4L _
      rfl rfl rfl rfl (solveStep_pos rlogW sq4L rot4L hd)

/-- C10: whenever `estimate` returns without raising, the returned value
is `True`, and the stored coefficient matrix has exactly `N + 3` rows of 2
entries each, for `N` the number of (validated) input landmarks. -/
theorem c10_estimate_success_shape :
    ∀ (rlog : ℚ → ℚ) (t : TpsTransform) (srcIn dstIn : PyInput) (b : Bool),
      (TpsTransform.estimate rlog t srcIn dstIn).1 = .ok b →
      b = true ∧
      ∃ s2 p, ensure2d srcIn = .ok s2 ∧
        (TpsTransform.estimate rlog t srcIn dstIn).2.parameters = some p ∧
        p.length = s2.length + 3 ∧ ∀ row ∈ p, row.length = 2 := by
  intro rlog t srcIn dstIn b hb
  rcases estimate_cases rlog t srcIn dstIn with ⟨e, he⟩ |
    ⟨e, s2, d2, h1, h2, he⟩ | ⟨s2, d2, p, h1, h2, hsv, he⟩
  · rw [he] at hb
    exact absurd hb (by simp)
  · rw [he] at hb
    exact absurd hb (by simp)
  · rw [he] at hb
    have hb2 : true = b := by
      simpa using hb
    refine ⟨hb2.symm, s2, p, h1, by rw [he], ?_, ?_⟩
    · rw [solveStep_ok rlog s2 d2 p hsv, toLists_length]
    · rw [solveStep_ok rlog s2 d2 p hsv]
      exact toLists_row_length _

/-- C10 witness at a concrete successful estimate. -/
theorem c10_witness :
    true = true ∧
    ∃ s2 p, ensure2d (.arr2 sq4L) = .ok s2 ∧
      (TpsTransform.estimate rlogW TpsTransform.init
        (.arr2 sq4L) (.arr2 rot4L)).2.parameters = some p ∧
      p.length = s2.length + 3 ∧ ∀ row ∈ p, row.length = 2 :=
  c10_estimate_success_shape rlogW TpsTransform.init (.arr2 sq4L) (.arr2 rot4L)
    true (by rw [estimateRun_sq])

/-- C8 counterexample: the claim that only shape mismatch, emptiness,
fewer than 3 points or bad rank are rejected fails on the code.  A
well-formed `(3, 3)` landmark pair passes all of those checks yet
`estimate` still raises: the assignment `L[:n,-3:] = P` fails to broadcast
a `(3, 4)` block into a `(3, 3)` slot.  The third conjunct records that
the input really has point dimensionality 3. -/
theorem c8_counterexample :
    TpsTransform.estimate rlog0 TpsTransform.init (.arr2 arr33) (.arr2 arr33)
      = (.error .broadcastError, ⟨false, none, some arr33, some arr33⟩)
  ∧ ensure2d (.arr2 arr33) = .ok arr33
  ∧ (arr33.headD []).length = 3 :=
  ⟨estimateRun_arr33, rfl, rfl⟩

/-- C8 (amended): `estimate` performs no explicit dimensionality check and
1-D inputs are silently expanded to `(N, 1)`; validation rejects only
shape mismatch, emptiness, fewer than 3 points and rank outside 1 and 2.
However, every validated input whose point dimensionality is not 2 still
raises afterwards, with a numpy broadcast `ValueError` during system
assembly, so non-2-D landmarks never reach the solver. -/
theorem c8_estimate_dimensionality :
    (∀ (rlog : ℚ → ℚ) (t : TpsTransform) (srcIn dstIn : PyInput)
       (s2 d2 : List (List ℚ)),
      ensure2d srcIn = .ok s2 → ensure2d dstIn = .ok d2 →
      shape2 s2 = shape2 d2 → (s2.headD []).length ≠ 2 →
      TpsTransform.estimate rlog t srcIn dstIn
        = (.error .broadcastError, { t with src := some s2, dst := some d2 }))
  ∧ (∀ xs : List ℚ, 3 ≤ xs.length →
      ensure2d (.arr1 xs) = .ok (xs.map fun x => [x])) := by
  constructor
  · intro rlog t srcIn dstIn s2 d2 h1 h2 h3 h4
    exact (estimate_eq_body rlog t srcIn dstIn s2 d2 h1 h2).trans
      (body_broadcast rlog t s2 d2 h3 h4)
  · intro xs hlen
    have h0 : ensure2d (.arr1 xs) = ensure2dArr (xs.map fun x => [x]) := rfl
    rw [h0]
    unfold ensure2dArr
    rw [sum_map_singleton, if_neg (by omega),
      if_neg (by simp only [List.length_map]; omega)]

/-- C8 witness: a concrete `(3, 3)` pair is rejected during assembly, and a
concrete 1-D array is silently expanded. -/
theorem c8_witness :
    TpsTransform.estimate rlog0 TpsTransform.init (.arr2 w33) (.arr2 w33)
      = (.error .broadcastError,
         { TpsTransform.init with src := some w33, dst := some w33 })
  ∧ ensure2d (.arr1 [3, 7, 9]) = .ok ([3, 7, 9].map fun x => [x]) :=
  ⟨c8_estimate_dimensionality.1 rlog0 TpsTransform.init (.arr2 w33) (.arr2 w33)
      w33 w33 rfl rfl rfl (by decide),
   c8_estimate_dimensionality.2 [3, 7, 9] (by decide)⟩

/-- C9: `__call__` raises a `ValueError` before any evaluation when
`parameters` is unset, and raises the query-shape `ValueError` for every
`coords` argument that is not 2-D with exactly 2 columns. -/
theorem c9_call_validation :
    ∀ (rlog : ℚ → ℚ) (t : TpsTransform) (c : PyInput),
      (t.parameters = none →
        TpsTransform.call rlog t c
          = .error (.valueError "None. Compute the estimate"))
    ∧ (∀ coeffs, t.parameters = some coeffs →
        ¬ (ndimOf c = 2 ∧ pyCols c = 2) →
        TpsTransform.call rlog t c
          = .error (.valueError "Input coords must have shape (N,2)")) := by
  intro rlog t c
  constructor
  · intro h
    unfold TpsTransform.call
    rw [h]
  · intro coeffs h hc
    unfold TpsTransform.call
    rw [h]
    rcases c with q | xs | rows | xs3
    · rfl
    · rfl
    · have hcols : (rows.headD []).length ≠ 2 := fun hp => hc ⟨rfl, hp⟩
      simp [hcols]
      simpa using hcols
    · rfl

/-- C9 witness at concrete inputs: an unestimated transform rejects any
query, and an estimated one rejects a 1-D query. -/
theorem c9_witness :
    TpsTransform.call rlog0 TpsTransform.init (.arr2 [[0, 0]])
      = .error (.valueError "None. Compute the estimate")
  ∧ TpsTransform.call rlog0 ⟨true, some [[1], [1]], some [[0]], some [[0]]⟩
      (.arr1 [1, 2])
      = .error (.valueError "Input coords must have shape (N,2)") :=
  ⟨(c9_call_validation rlog0 TpsTransform.init (.arr2 [[0, 0]])).1 rfl,
   (c9_call_validation rlog0 ⟨true, some [[1], [1]], some [[0]], some [[0]]⟩
      (.arr1 [1, 2])).2 [[1], [1]] rfl (by decide)⟩

/-- C4: for the square landmarks `src = [[0,0],[0,5],[5,5],[5,0]]` and the
rotated destinations `dst = [[5,0],[0,0],[0,5],[5,5]]`, after a successful
`estimate(src, dst)` the transform maps every source landmark exactly to
its corresponding destination landmark (for every logarithm stand-in, the
exact-arithmetic counterpart of the floating-point-tolerance claim). -/
theorem c4_square_control_points :
    ∀ (rlog : ℚ → ℚ) (params : Matrix (Fin (4 + 3)) (Fin 2) ℚ),
      estimateT rlog 4 sq4F rot4F = .ok params →
      ∀ i : ℕ, i < 4 →
        (splineFunction rlog 4 sq4F (colFn params 0) (sq4F i).1 (sq4F i).2,
         splineFunction rlog 4 sq4F (colFn params 1) (sq4F i).1 (sq4F i).2)
          = rot4F i := by
  intro rlog params h i hi
  obtain ⟨h1, h2⟩ := tps_interpolates rlog 4 sq4F rot4F params h i hi
  rw [h1, h2]

/-- C4 witness: a concrete successful estimate sends the first source
corner `(0, 0)` to the first destination corner `(5, 0)`. -/
theorem c4_witness :
    (splineFunction rlogW 4 sq4F
       (colFn (matInv (systemL rlogW 4 sq4F) * systemV 4 rot4F) 0)
       (sq4F 0).1 (sq4F 0).2,
     splineFunction rlogW 4 sq4F
       (colFn (matInv (systemL rlogW 4 sq4F) * systemV 4 rot4F) 1)
       (sq4F 0).1 (sq4F 0).2) = rot4F 0 :=
  c4_square_control_points rlogW _ estT_sq 0 (by norm_num)

/-- C6: the solver and the evaluator apply the exact same radial basis
kernel.  The kernel block of the system matrix and the per-landmark terms
of `_spline_function` are both given by the single function `kernelU`,
which satisfies `U = 0` at distance zero and
`U = sq * log(sq + 1e-8)` on squared distance `sq` otherwise. -/
theorem c6_same_kernel :
    ∀ (rlog : ℚ → ℚ) (n : ℕ) (pts : ℕ → ℚ × ℚ) (i j : Fin n)
      (coeffs : ℕ → ℚ) (x y s : ℚ),
      radialDistance rlog n pts i j
        = kernelU rlog (sqDist (pts (i : ℕ)) (pts (j : ℕ)))
    ∧ splineFunction rlog n pts coeffs x y
        = coeffs n + coeffs (n + 1) * x + coeffs (n + 2) * y +
          ∑ k ∈ Finset.range n, coeffs k * kernelU rlog (sqDist (pts k) (x, y))
    ∧ kernelU rlog 0 = 0
    ∧ (s ≠ 0 → kernelU rlog s = s * rlog (s + 1 / 100000000)) := by
  intro rlog n pts i j coeffs x y s
  refine ⟨rfl, rfl, by simp [kernelU], fun hs => ?_⟩
  simp [kernelU, hs, smallEps]

/-- C6 witness: the kernel facts evaluated at a concrete nonzero squared
distance. -/
theorem c6_witness :
    kernelU rlogW 0 = 0 ∧ kernelU rlogW 1 = 1 * rlogW (1 + 1 / 100000000) :=
  ⟨(c6_same_kernel rlogW 1 (fun _ => (0, 0)) 0 0 (fun _ => 0) 0 0 1).2.2.1,
   (c6_same_kernel rlogW 1 (fun _ => (0, 0)) 0 0 (fun _ => 0) 0 0 1).2.2.2
     (by norm_num)⟩

/-- C2: supporting fact for the code bug.  The grid-upsampling calls of
`tps_warp` omit the `order` argument of the external `map_coordinates`
primitive, so they run at its default order 3 (cubic spline), not at the
order-1 bilinear blend the claim (and the code comment and docstring)
describe. -/
theorem c2_upsample_order_not_linear :
    upsampleCallOrder = mapCoordinatesDefaultOrder
  ∧ mapCoordinatesDefaultOrder = 3 :=
  ⟨rfl, rfl⟩

/-- C7: `tps_warp` raises the invalid-shape `ValueError` for every
zero-height or zero-width image, including the shapes `(0, 10)`,
`(10, 0)` and `(0,)` (the array `np.zeros(0)` built from the scalar shape
`0`), and returns no warped image there. -/
theorem c7_zero_size_image_rejected :
    warpShapeCheck [0, 10] = .error (.valueError "Cannot warp image with invalid shape")
  ∧ warpShapeCheck [10, 0] = .error (.valueError "Cannot warp image with invalid shape")
  ∧ warpShapeCheck [0] = .error (.valueError "Cannot warp image with invalid shape")
  ∧ ∀ (rlog : ℚ → ℚ)
      (mapCoords3 : (ℕ → ℕ → ℚ) → (ℕ → ℕ → ℚ) → (ℕ → ℕ → ℚ) → (ℕ → ℕ → ℚ))
      (img : Img) (m : ℕ) (src dst : ℕ → ℚ × ℚ)
      (reg : Option (ℤ × ℤ × ℤ × ℤ)) (ord : ℕ) (gs : Option ℕ),
      img.rows = 0 ∨ img.cols = 0 →
      tpsWarp rlog mapCoords3 img m src dst reg ord gs
        = .error (.valueError "Cannot warp image with invalid shape") := by
  refine ⟨rfl, rfl, rfl, ?_⟩
  intro rlog mapCoords3 img m src dst reg ord gs h
  unfold tpsWarp
  rw [if_pos h]

/-- C7 witness: a zero-height image is rejected. -/
theorem c7_witness :
    tpsWarp rlog0 mapC0 imgZ 3 (ptRow dupDstL) (ptRow dupDstL) none 1 none
      = .error (.valueError "Cannot warp image with invalid shape") :=
  c7_zero_size_image_rejected.2.2.2 rlog0 mapC0 imgZ 3 (ptRow dupDstL)
    (ptRow dupDstL) none 1 none (Or.inl rfl)

/-- C3: at `grid_scale = 1` (or the default), `tps_warp` equals the
reference warp that evaluates the estimated inverse transform at every
output-grid pixel individually and resamples there — in particular the
output does not depend on the upsampling primitive at all (the branch is a
no-op), and estimation failures propagate identically. -/
theorem c3_scale_one_per_pixel :
    ∀ (rlog : ℚ → ℚ)
      (mapCoords3 : (ℕ → ℕ → ℚ) → (ℕ → ℕ → ℚ) → (ℕ → ℕ → ℚ) → (ℕ → ℕ → ℚ))
      (img : Img) (m : ℕ) (src dst : ℕ → ℚ × ℚ)
      (reg : Option (ℤ × ℤ × ℤ × ℤ)) (ord : ℕ) (gs : Option ℕ),
      gs = none ∨ gs = some 1 →
      tpsWarp rlog mapCoords3 img m src dst reg ord gs
        = specPerPixelWarp rlog img m src dst reg ord := by
  intro rlog mapCoords3 img m src dst reg ord gs hgs
  rcases hgs with rfl | rfl <;> rfl

/-- C3 witness at concrete inputs. -/
theorem c3_witness :
    tpsWarp rlogW mapC0 img4 4 rot4F sq4F (some (0, 0, 3, 3)) 1 (some 1)
      = specPerPixelWarp rlogW img4 4 rot4F sq4F (some (0, 0, 3, 3)) 1 :=
  c3_scale_one_per_pixel rlogW mapC0 img4 4 rot4F sq4F (some (0, 0, 3, 3)) 1
    (some 1) (Or.inr rfl)

/-- C5: evaluating `tps_warp` at the failing input
`output_region = (0, 0, 2, 2)`, `grid_scale = 1`: the output image has
spatial extent 2 by 2, i.e. `(xmax - xmin) x (ymax - ymin)`, not the
3 by 3 inclusive extent `(xmax - xmin + 1) x (ymax - ymin + 1)` that the
claim and the docstring describe. -/
theorem c5_output_region_off_by_one :
    (tpsWarp rlogW mapC0 img4 4 rot4F sq4F (some (0, 0, 2, 2)) 1
        (some 1)).map (fun w => (w.rows, w.cols)) = .ok (2, 2) := by
  unfold tpsWarp
  rw [if_neg (by norm_num [img4]), estT_sq]
  rfl
